import Mathlib

/-!
A shallow embedding of the `AuthClient` SDK (files `src/src/AuthClient.js`,
`src/src/index.js` and the unnamed variant `src/unnamed/part_000`) together
with proofs about its request/response normalization, token lifecycle and
error mapping.

JavaScript values that flow through the client (parsed JSON bodies, token
values, error fields) are modelled by the inductive type `JsValue`; JS
truthiness, optional chaining (`a?.b`), logical-or defaulting (`a || b`) and
strict comparison with the boolean literal `false` (`a === false`) are given
as executable functions on `JsValue`.

The HTTP transport is external: each request method takes the response the
transport would return as an explicit argument and returns the updated
client, the list of outgoing requests it issued, and either the parsed body
or the mapped `AuthError`.
-/

/-- JavaScript values as far as the client inspects them:
`null`, `undefined`, booleans, (integer) numbers, strings and objects. -/
inductive JsValue where
  | vNull : JsValue
  | vUndef : JsValue
  | vBool : Bool → JsValue
  | vNum : Int → JsValue
  | vStr : String → JsValue
  | vObj : List (String × JsValue) → JsValue

open JsValue

/-- JavaScript truthiness: `null`, `undefined`, `false`, `0` and `""` are
falsy; every other value (including any object) is truthy. -/
def truthy : JsValue → Bool
  | vNull => false
  | vUndef => false
  | vBool b => b
  | vNum n => n != 0
  | vStr s => s != ""
  | vObj _ => true

/-- `a || b`: `a` if `a` is truthy, else `b`. -/
def jsOr (a b : JsValue) : JsValue := if truthy a then a else b

/-- Property access with optional chaining, `v?.k`: `undefined` when `v` is
`null`/`undefined`, the (last-written) field value on an object with that
field, `undefined` otherwise. -/
def jsGet (v : JsValue) (k : String) : JsValue :=
  match v with
  | vObj fields =>
      match fields.foldl (fun acc p => if p.1 = k then some p.2 else acc) none with
      | some w => w
      | none => vUndef
  | _ => vUndef

/-- Strict equality with the boolean literal `false` (`v === false`). -/
def isFalseLit : JsValue → Bool
  | vBool false => true
  | _ => false

/-- Template-literal stringification of a value, as used by
`` `UserToken ${this.token}` `` and by `localStorage.setItem`. -/
def jsToString : JsValue → String
  | vNull => "null"
  | vUndef => "undefined"
  | vBool true => "true"
  | vBool false => "false"
  | vNum n => toString n
  | vStr s => s
  | vObj _ => "[object Object]"

/-! ## Persistence store

The store (`localStorage` or a user-supplied object) maps string keys to
string values; each of its three operations may throw, which the client
catches.  A thrown operation is modelled by the corresponding `*Throws`
flag being set. -/

/-- A key-value persistence store whose operations may throw. -/
structure Store where
  items : List (String × String)
  getThrows : Bool
  setThrows : Bool
  removeThrows : Bool
deriving DecidableEq, Repr

/-- First-match association-list lookup (keys are kept unique). -/
def lookupK (items : List (String × String)) (k : String) : Option String :=
  (items.find? (fun p => p.1 = k)).map (·.2)

/-- Replace/insert a binding, keeping keys unique. -/
def setK (items : List (String × String)) (k v : String) : List (String × String) :=
  items.filter (fun p => p.1 ≠ k) ++ [(k, v)]

/-- Remove a binding. -/
def removeK (items : List (String × String)) (k : String) : List (String × String) :=
  items.filter (fun p => p.1 ≠ k)

/-- `storage.getItem(key)`: throws, or returns the stored string or null. -/
def Store.getItem (s : Store) (k : String) : Except Unit (Option String) :=
  if s.getThrows then .error () else .ok (lookupK s.items k)

/-- `storage.setItem(key, val)`: throws, or returns the updated store. -/
def Store.setItem (s : Store) (k v : String) : Except Unit Store :=
  if s.setThrows then .error () else .ok { s with items := setK s.items k v }

/-- `storage.removeItem(key)`: throws, or returns the updated store. -/
def Store.removeItem (s : Store) (k : String) : Except Unit Store :=
  if s.removeThrows then .error () else .ok { s with items := removeK s.items k }

/-! ## The client -/

/-- The mutable/configured state of an `AuthClient` instance.  `baseUrl`
is stored with the trailing slash already stripped (the constructor does
`baseUrl.replace(/\/$/, '')`).  `keyInPath` is the `part_000` variant's
flag; the `AuthClient.js` variant behaves as `keyInPath = true`.
`token = vNull` is the no-token state. -/
structure Client where
  apiKey : String
  apiSecret : String
  baseUrl : String
  keyInPath : Bool
  storage : Option Store
  token : JsValue

/-- The fixed persistence key `'auth_user_token'`. -/
def tokenKey : String := "auth_user_token"

/-- `_load`: no store → null; a throwing `getItem` → null; otherwise the
stored string (or null when absent). -/
def _load (storage : Option Store) (k : String) : JsValue :=
  match storage with
  | none => vNull
  | some s =>
      match s.getItem k with
      | .error _ => vNull
      | .ok none => vNull
      | .ok (some v) => vStr v

/-- `_save`: no store → no-op; a throwing `setItem` is caught and ignored. -/
def _save (storage : Option Store) (k v : String) : Option Store :=
  match storage with
  | none => none
  | some s =>
      match s.setItem k v with
      | .error _ => some s
      | .ok s2 => some s2

/-- `_clear`: no store → no-op; a throwing `removeItem` is caught and
ignored. -/
def _clear (storage : Option Store) (k : String) : Option Store :=
  match storage with
  | none => none
  | some s =>
      match s.removeItem k with
      | .error _ => some s
      | .ok s2 => some s2

/-- `baseUrl.replace(/\/$/, '')`: strip one trailing slash, if present. -/
def stripTrailingSlash (s : String) : String :=
  if s.data.getLast? = some '/' then String.mk s.data.dropLast else s

/-- `path.startsWith('/') ? path.slice(1) : path`. -/
def stripLeadingSlash (s : String) : String :=
  match s.data with
  | c :: rest => if c = '/' then String.mk rest else s
  | [] => s

/-- The constructor body after validation: strip the base URL's trailing
slash and load any persisted token from the store under `tokenKey`. -/
def mkClient (apiKey apiSecret baseUrl : String) (keyInPath : Bool)
    (storage : Option Store) : Client :=
  { apiKey := apiKey
    apiSecret := apiSecret
    baseUrl := stripTrailingSlash baseUrl
    keyInPath := keyInPath
    storage := storage
    token := _load storage tokenKey }

/-- The constructor's validation: `apiKey`/`apiSecret` must be truthy
(non-empty) or construction throws a configuration error. -/
def newClient (apiKey apiSecret baseUrl : String) (keyInPath : Bool)
    (storage : Option Store) : Except String Client :=
  if apiKey = "" then .error "apiKey is required"
  else if apiSecret = "" then .error "apiSecret is required"
  else .ok (mkClient apiKey apiSecret baseUrl keyInPath storage)

/-- `setToken(token)`: `this.token = token || null`; persist the
(stringified) value when truthy, otherwise remove the stored copy. -/
def setToken (t : JsValue) (c : Client) : Client :=
  { c with
    token := if truthy t then t else vNull
    storage :=
      if truthy t then _save c.storage tokenKey (jsToString t)
      else _clear c.storage tokenKey }

/-- `logout()` is `setToken(null)`. -/
def logout (c : Client) : Client := setToken vNull c

/-- `getAuthHeader()`: the bearer header object when a token is held, else
the empty object. -/
def getAuthHeader (c : Client) : List (String × String) :=
  if truthy c.token then [("Authorization", "UserToken " ++ jsToString c.token)] else []

/-! ## URL and header construction -/

/-- Characters `encodeURIComponent` leaves unescaped:
alphanumerics and `- _ . ! ~ * ' ( )`. -/
def isUnreservedURI (c : Char) : Bool :=
  c.isAlphanum || c == '-' || c == '_' || c == '.' || c == '!' || c == '~' ||
    c == '*' || c == Char.ofNat 39 || c == '(' || c == ')'

/-- One hex digit, upper case. -/
def hexDigitU (n : Nat) : Char :=
  if n < 10 then Char.ofNat (48 + n) else Char.ofNat (65 + (n - 10))

/-- `%XX` percent-encoding of one byte (given as a `Nat` below 256). -/
def percentByte (b : Nat) : String :=
  String.mk ['%', hexDigitU (b / 16), hexDigitU (b % 16)]

/-- The UTF-8 bytes of a code point. -/
def utf8Bytes (n : Nat) : List Nat :=
  if n < 128 then [n]
  else if n < 2048 then [192 + n / 64, 128 + n % 64]
  else if n < 65536 then [224 + n / 4096, 128 + n / 64 % 64, 128 + n % 64]
  else [240 + n / 262144, 128 + n / 4096 % 64, 128 + n / 64 % 64, 128 + n % 64]

/-- `encodeURIComponent`: unreserved characters pass through, every other
character is percent-encoded byte-wise in UTF-8. -/
def encodeURIComponent (s : String) : String :=
  s.data.foldl
    (fun acc c =>
      if isUnreservedURI c then acc.push c
      else acc ++ String.join ((utf8Bytes c.toNat).map percentByte))
    ""

/-- `_buildUrl(path)` (the `part_000` variant; the `AuthClient.js` variant
is the `keyInPath = true` case): join the slash-stripped base URL with
`encodeURIComponent(apiKey)/path` or just `path`. -/
def _buildUrl (c : Client) (path : String) : String :=
  let p := stripLeadingSlash path
  if c.keyInPath then c.baseUrl ++ "/" ++ encodeURIComponent c.apiKey ++ "/" ++ p
  else c.baseUrl ++ "/" ++ p

/-- Lookup in a header list built by object spread: the last binding of a
key wins. -/
def hlookup (hs : List (String × String)) (k : String) : Option String :=
  match hs with
  | [] => none
  | a :: t =>
      match hlookup t k with
      | some v => some v
      | none => if a.1 = k then some a.2 else none

/-- `_headers(extra)` of the `AuthClient.js` variant: `Content-Type`, the
API secret, the `Authorization: UserToken <token>` entry when a token is
held, then the caller's extra headers (spread last, so they override). -/
def _headersV1 (c : Client) (extra : List (String × String)) : List (String × String) :=
  [("Content-Type", "application/json"), ("X-API-Secret", c.apiSecret)] ++
    (if truthy c.token then [("Authorization", "UserToken " ++ jsToString c.token)] else []) ++
    extra

/-- `_headers(extra)` of the `part_000` variant: additionally sends the API
key as `X-API-Key`. -/
def _headersV2 (c : Client) (extra : List (String × String)) : List (String × String) :=
  [("Content-Type", "application/json"), ("X-API-Key", c.apiKey),
    ("X-API-Secret", c.apiSecret)] ++
    (if truthy c.token then [("Authorization", "UserToken " ++ jsToString c.token)] else []) ++
    extra

/-! ## Responses, errors and the request methods -/

/-- What the client reads off a transport response: `.ok`, `.status`, and
the result of `.json()` — `none` models a `.json()` that throws. -/
structure Response where
  ok : Bool
  status : Nat
  jsonBody : Option JsValue

/-- `safeJson(resp)`: the parsed body, or `null` when parsing throws. -/
def safeJson (r : Response) : JsValue :=
  match r.jsonBody with
  | some v => v
  | none => vNull

/-- Modelled from the spec: the `AuthError` class lives in `src/errors.js`,
which is not among the sources; per the spec it carries a human-readable
message, an HTTP-status-like numeric code, a machine-readable short code,
and the raw response payload (or null), and is never partially filled. -/
structure AuthError where
  message : JsValue
  status : Nat
  code : JsValue
  data : JsValue

/-- `toError(resp, json, fallback)`: message from `json?.message`, else the
fallback, else `'Request failed'`; status from the response; short code
from `json?.code`, else `json?.error`, else `'REQUEST_FAILED'`; payload is
the parsed JSON itself. -/
def toError (resp : Response) (json : JsValue) (fallback : String) : AuthError :=
  { message := jsOr (jsOr (jsGet json "message") (vStr fallback)) (vStr "Request failed")
    status := resp.status
    code := jsOr (jsOr (jsGet json "code") (jsGet json "error")) (vStr "REQUEST_FAILED")
    data := json }

/-- One outgoing HTTP request as the client assembles it. -/
structure Request where
  url : String
  verb : String
  headers : List (String × String)
  body : Option JsValue

/-- The outcome of one method call: the client afterwards, the requests
issued, and the resolved body or the rejection error. -/
structure CallResult where
  client : Client
  calls : List Request
  result : Except AuthError JsValue

/-- `register({email, username, password, name})`: POST `auth/register`;
on `!resp.ok || json?.success === false` reject with the mapped error
(fallback `'Register failed'`); otherwise adopt a truthy
`json?.data?.user_token` via `setToken` and resolve with the body. -/
def register (c : Client) (email username password name : JsValue)
    (resp : Response) : CallResult :=
  let req : Request :=
    { url := _buildUrl c "auth/register", verb := "POST", headers := _headersV2 c []
      body := some (vObj [("email", email), ("username", username),
        ("password", password), ("name", name)]) }
  let json := safeJson resp
  if !resp.ok || isFalseLit (jsGet json "success") then
    { client := c, calls := [req], result := .error (toError resp json "Register failed") }
  else
    let tk := jsGet (jsGet json "data") "user_token"
    { client := if truthy tk then setToken tk c else c
      calls := [req], result := .ok json }

/-- `login({email, username, password})`: POST `auth/login` with
`{email, password}` when `email` is truthy, else `{username, password}`;
failure fallback `'Login failed'`; adopts a truthy
`json?.data?.user_token`. -/
def login (c : Client) (email username password : JsValue)
    (resp : Response) : CallResult :=
  let payload :=
    if truthy email then vObj [("email", email), ("password", password)]
    else vObj [("username", username), ("password", password)]
  let req : Request :=
    { url := _buildUrl c "auth/login", verb := "POST", headers := _headersV2 c []
      body := some payload }
  let json := safeJson resp
  if !resp.ok || isFalseLit (jsGet json "success") then
    { client := c, calls := [req], result := .error (toError resp json "Login failed") }
  else
    let tk := jsGet (jsGet json "data") "user_token"
    { client := if truthy tk then setToken tk c else c
      calls := [req], result := .ok json }

/-- `getProfile()`: authenticated GET of the profile path; failure fallback
`'Profile failed'`; no token extraction and no state change. -/
def getProfile (c : Client) (resp : Response) : CallResult :=
  let req : Request :=
    { url := _buildUrl c "auth/user/profile", verb := "GET"
      headers := _headersV2 c [], body := none }
  let json := safeJson resp
  if !resp.ok || isFalseLit (jsGet json "success") then
    { client := c, calls := [req], result := .error (toError resp json "Profile failed") }
  else
    { client := c, calls := [req], result := .ok json }

/-- `authed(path, {method, body, headers})`: the generic authenticated
escape hatch; caller headers are merged into `_headers`; failure fallback
`'Request failed'`; no token extraction and no state change. -/
def authed (c : Client) (path verb : String) (body : Option JsValue)
    (extraHeaders : List (String × String)) (resp : Response) : CallResult :=
  let req : Request :=
    { url := _buildUrl c path, verb := verb
      headers := _headersV2 c extraHeaders, body := body }
  let json := safeJson resp
  if !resp.ok || isFalseLit (jsGet json "success") then
    { client := c, calls := [req], result := .error (toError resp json "Request failed") }
  else
    { client := c, calls := [req], result := .ok json }

/-- Modelled from the spec: the `googleAuth` method is documented but its
implementation is not among the sources.  Per the spec it requires at
least one of an id-token or access-token, else fails fast with a
`MISSING_TOKEN` error before any network call; otherwise it POSTs
`auth/google`, follows the identical response protocol, and adopts a
truthy token from the successful body via `setToken`.  Only the error's
short code is specified for the fail-fast path; the other error fields
are filled with the client-side values (no HTTP status yet). -/
def googleAuth (c : Client) (idToken accessToken : JsValue)
    (resp : Response) : CallResult :=
  if !truthy idToken && !truthy accessToken then
    { client := c, calls := []
      result := .error
        { message := vStr "id_token or access_token is required", status := 0
          code := vStr "MISSING_TOKEN", data := vNull } }
  else
    let req : Request :=
      { url := _buildUrl c "auth/google", verb := "POST", headers := _headersV2 c []
        body := some (vObj [("id_token", idToken), ("access_token", accessToken)]) }
    let json := safeJson resp
    if !resp.ok || isFalseLit (jsGet json "success") then
      { client := c, calls := [req], result := .error (toError resp json "Google auth failed") }
    else
      let tk := jsGet (jsGet json "data") "user_token"
      { client := if truthy tk then setToken tk c else c
        calls := [req], result := .ok json }

/-! ## Token-lifecycle operation sequences and consistency -/

/-- The token-mutating operations a caller can issue. -/
inductive TokenOp where
  | set : JsValue → TokenOp
  | doLogout : TokenOp

/-- Run one token operation on the client. -/
def applyOp (c : Client) (op : TokenOp) : Client :=
  match op with
  | .set t => setToken t c
  | .doLogout => logout c

/-- Run a sequence of token operations. -/
def applyOps (c : Client) (ops : List TokenOp) : Client :=
  ops.foldl applyOp c

/-- A store none of whose operations throws. -/
def goodStore (s : Store) : Prop :=
  s.getThrows = false ∧ s.setThrows = false ∧ s.removeThrows = false

/-- The string persisted under the fixed key, if any. -/
def storedToken (c : Client) : Option String :=
  match c.storage with
  | none => none
  | some s => lookupK s.items tokenKey

/-- The in-memory token agrees with the persisted copy: a truthy token is
stored (stringified) under the fixed key, and the no-token state has no
stored copy. -/
def tokenConsistent (c : Client) : Prop :=
  (truthy c.token = true ∧ storedToken c = some (jsToString c.token)) ∨
    (c.token = vNull ∧ storedToken c = none)

/-- The `json?.data?.user_token` field of a response body. -/
def userTok (resp : Response) : JsValue :=
  jsGet (jsGet (safeJson resp) "data") "user_token"

/-! ## Concrete sample inputs -/

/-- An empty, well-behaved store. -/
def plainStore : Store :=
  { items := [], getThrows := false, setThrows := false, removeThrows := false }

/-- A store holding a persisted token `"T"`, none of whose operations
throws. -/
def tStore : Store :=
  { items := [(tokenKey, "T")], getThrows := false, setThrows := false,
    removeThrows := false }

/-- A store holding a stale value whose every operation throws. -/
def badStore : Store :=
  { items := [(tokenKey, "OLD")], getThrows := true, setThrows := true,
    removeThrows := true }

/-- A storage-less client with no token. -/
def sClient : Client :=
  { apiKey := "k", apiSecret := "sec", baseUrl := "https://h/api",
    keyInPath := true, storage := none, token := vNull }

/-- A client over the empty well-behaved store, no token. -/
def stClient : Client :=
  { apiKey := "k", apiSecret := "sec", baseUrl := "https://h/api",
    keyInPath := true, storage := some plainStore, token := vNull }

/-- A client holding token `"T"` consistently with its store. -/
def tokClient : Client :=
  { apiKey := "k", apiSecret := "sec", baseUrl := "https://h/api",
    keyInPath := true, storage := some tStore, token := vStr "T" }

/-- A failing response: HTTP 500 with a JSON body carrying `message` and
`code` fields. -/
def failResp : Response :=
  { ok := false, status := 500,
    jsonBody := some (vObj [("message", vStr "boom"), ("code", vStr "E1")]) }

/-- A failing response whose body could not be parsed. -/
def failRespNoBody : Response :=
  { ok := false, status := 500, jsonBody := none }

/-- A successful login/register response carrying a user token. -/
def okResp : Response :=
  { ok := true, status := 200,
    jsonBody := some (vObj [("success", vBool true),
      ("data", vObj [("user_token", vStr "T1")])]) }

/-- A successful response whose token field is present but empty. -/
def okEmptyTokResp : Response :=
  { ok := true, status := 200,
    jsonBody := some (vObj [("success", vBool true),
      ("data", vObj [("user_token", vStr "")])]) }

/-- A 2xx response whose `success` field is the string `"false"` — truthy,
and not the boolean literal `false`. -/
def weirdResp : Response :=
  { ok := true, status := 200,
    jsonBody := some (vObj [("success", vStr "false")]) }

/-! ## Helper lemmas -/

theorem lookupK_setK (items : List (String × String)) (k v : String) :
    lookupK (setK items k v) k = some v := by
  induction items with
  | nil => simp [lookupK, setK]
  | cons a t ih =>
      by_cases h : a.1 = k
      · simp [lookupK, setK, h]
      · simp [lookupK, setK, h]

theorem lookupK_removeK (items : List (String × String)) (k : String) :
    lookupK (removeK items k) k = none := by
  induction items with
  | nil => simp [lookupK, removeK]
  | cons a t ih =>
      by_cases h : a.1 = k
      · simp [lookupK, removeK, h]
      · simp [lookupK, removeK, h]

theorem jsOr_fallback (a : JsValue) (s t : String) (hs : s ≠ "") :
    jsOr (jsOr a (vStr s)) (vStr t) = jsOr a (vStr s) := by
  by_cases h : truthy a = true
  · simp [jsOr, h]
  · have h2 : truthy (vStr s) = true := by simp [truthy, hs]
    simp [jsOr, h, h2]

theorem hlookup_append (l1 l2 : List (String × String)) (k : String) :
    hlookup (l1 ++ l2) k =
      match hlookup l2 k with
      | some v => some v
      | none => hlookup l1 k := by
  induction l1 with
  | nil => cases h2 : hlookup l2 k <;> simp [hlookup, h2]
  | cons a t ih =>
      simp only [List.cons_append, hlookup]
      cases h2 : hlookup l2 k <;> cases ht : hlookup t k <;> simp [ih, h2, ht]

theorem setToken_consistent (c : Client) (t : JsValue) (s : Store)
    (hc : c.storage = some s) (hg : goodStore s) :
    tokenConsistent (setToken t c) := by
  obtain ⟨hget, hset, hrem⟩ := hg
  by_cases ht : truthy t = true
  · left
    refine ⟨by simp [setToken, ht], ?_⟩
    simp [storedToken, setToken, ht, hc, _save, Store.setItem, hset, lookupK_setK]
  · right
    refine ⟨by simp [setToken, ht], ?_⟩
    simp [storedToken, setToken, ht, hc, _clear, Store.removeItem, hrem, lookupK_removeK]

theorem applyOp_consistent (c : Client) (op : TokenOp) (s : Store)
    (hc : c.storage = some s) (hg : goodStore s) :
    tokenConsistent (applyOp c op) := by
  cases op with
  | set t => exact setToken_consistent c t s hc hg
  | doLogout => exact setToken_consistent c vNull s hc hg

theorem applyOp_good (c : Client) (op : TokenOp) (s : Store)
    (hc : c.storage = some s) (hg : goodStore s) :
    ∃ s2, (applyOp c op).storage = some s2 ∧ goodStore s2 := by
  obtain ⟨hget, hset, hrem⟩ := hg
  cases op with
  | set t =>
      by_cases ht : truthy t = true
      · refine ⟨{ s with items := setK s.items tokenKey (jsToString t) }, ?_, ?_⟩
        · simp [applyOp, setToken, ht, hc, _save, Store.setItem, hset]
        · exact ⟨hget, hset, hrem⟩
      · refine ⟨{ s with items := removeK s.items tokenKey }, ?_, ?_⟩
        · simp [applyOp, setToken, ht, hc, _clear, Store.removeItem, hrem]
        · exact ⟨hget, hset, hrem⟩
  | doLogout =>
      refine ⟨{ s with items := removeK s.items tokenKey }, ?_, ?_⟩
      · simp [applyOp, logout, setToken, truthy, hc, _clear, Store.removeItem, hrem]
      · exact ⟨hget, hset, hrem⟩

theorem applyOps_consistent (ops : List TokenOp) (c : Client) (s : Store)
    (hc : c.storage = some s) (hg : goodStore s)
    (hcons : tokenConsistent c) :
    tokenConsistent (applyOps c ops) := by
  induction ops generalizing c s with
  | nil => exact hcons
  | cons op rest ih =>
      obtain ⟨s2, hc2, hg2⟩ := applyOp_good c op s hc hg
      exact ih (applyOp c op) s2 hc2 hg2 (applyOp_consistent c op s hc hg)

theorem toError_fields (resp : Response) (json : JsValue) (fb : String)
    (hfb : fb ≠ "") :
    toError resp json fb =
      { message := jsOr (jsGet json "message") (vStr fb)
        status := resp.status
        code := jsOr (jsOr (jsGet json "code") (jsGet json "error"))
          (vStr "REQUEST_FAILED")
        data := json } := by
  simp [toError, jsOr_fallback _ _ _ hfb]

/-- C1: for every request method (register, login, getProfile, authed) and
every response whose HTTP status is non-success or whose parsed body
carries the boolean `success: false`, the call rejects with exactly one
`AuthError` whose message is the body's `message` field else the
method-specific fallback, whose numeric code is the response's HTTP
status, whose short code is the body's `code` field else its `error`
field else `'REQUEST_FAILED'`, and whose payload is the full parsed body
(null when unparseable). -/
theorem c1_error_mapping (c : Client) (e u p n : JsValue) (path verb : String)
    (bd : Option JsValue) (xh : List (String × String)) (resp : Response)
    (h : (!resp.ok || isFalseLit (jsGet (safeJson resp) "success")) = true) :
    (register c e u p n resp).result = .error
      { message := jsOr (jsGet (safeJson resp) "message") (vStr "Register failed")
        status := resp.status
        code := jsOr (jsOr (jsGet (safeJson resp) "code") (jsGet (safeJson resp) "error"))
          (vStr "REQUEST_FAILED")
        data := safeJson resp } ∧
    (login c e u p resp).result = .error
      { message := jsOr (jsGet (safeJson resp) "message") (vStr "Login failed")
        status := resp.status
        code := jsOr (jsOr (jsGet (safeJson resp) "code") (jsGet (safeJson resp) "error"))
          (vStr "REQUEST_FAILED")
        data := safeJson resp } ∧
    (getProfile c resp).result = .error
      { message := jsOr (jsGet (safeJson resp) "message") (vStr "Profile failed")
        status := resp.status
        code := jsOr (jsOr (jsGet (safeJson resp) "code") (jsGet (safeJson resp) "error"))
          (vStr "REQUEST_FAILED")
        data := safeJson resp } ∧
    (authed c path verb bd xh resp).result = .error
      { message := jsOr (jsGet (safeJson resp) "message") (vStr "Request failed")
        status := resp.status
        code := jsOr (jsOr (jsGet (safeJson resp) "code") (jsGet (safeJson resp) "error"))
          (vStr "REQUEST_FAILED")
        data := safeJson resp } := by
  refine ⟨?_, ?_, ?_, ?_⟩ <;>
    simp [register, login, getProfile, authed, h, toError_fields]

/-- Witness for C1 at a concrete failing response. -/
theorem c1_error_mapping_witness :
    ((!failResp.ok || isFalseLit (jsGet (safeJson failResp) "success")) = true) ∧
    (register sClient vNull vNull vNull vNull failResp).result = .error
      { message := vStr "boom", status := 500, code := vStr "E1"
        data := safeJson failResp } :=
  ⟨by decide, by
    exact (c1_error_mapping sClient vNull vNull vNull vNull "p" "GET" none []
      failResp (by decide)).1⟩

/-- C9: for every method and every success-status response, the call
resolves with the parsed body whenever the body's `success` field is any
value other than the boolean literal `false` (including `0`, `null`,
`""`, the string `"false"`, an absent field, or an unparseable body);
only strict boolean `false` triggers rejection. -/
theorem c9_strict_false_only (c : Client) (e u p n : JsValue) (path verb : String)
    (bd : Option JsValue) (xh : List (String × String)) (resp : Response)
    (hok : resp.ok = true)
    (hs : isFalseLit (jsGet (safeJson resp) "success") = false) :
    (register c e u p n resp).result = .ok (safeJson resp) ∧
    (login c e u p resp).result = .ok (safeJson resp) ∧
    (getProfile c resp).result = .ok (safeJson resp) ∧
    (authed c path verb bd xh resp).result = .ok (safeJson resp) := by
  refine ⟨?_, ?_, ?_, ?_⟩ <;> simp [register, login, getProfile, authed, hok, hs]

/-- Witness for C9: a 2xx response whose `success` field is the string
`"false"` still resolves. -/
theorem c9_strict_false_only_witness :
    weirdResp.ok = true ∧
    isFalseLit (jsGet (safeJson weirdResp) "success") = false ∧
    (getProfile sClient weirdResp).result = .ok (safeJson weirdResp) :=
  ⟨by decide, by decide,
    (c9_strict_false_only sClient vNull vNull vNull vNull "p" "GET" none []
      weirdResp (by decide) (by decide)).2.2.1⟩

/-- C10: a successful register/login whose body lacks a truthy
`data.user_token` leaves the client — token and persisted copy — exactly
as it was. -/
theorem c10_no_token_no_change (c : Client) (e u p n : JsValue) (resp : Response)
    (hok : resp.ok = true)
    (hs : isFalseLit (jsGet (safeJson resp) "success") = false)
    (ht : truthy (userTok resp) = false) :
    (register c e u p n resp).client = c ∧ (login c e u p resp).client = c := by
  have ht2 : truthy (jsGet (jsGet (safeJson resp) "data") "user_token") = false := ht
  exact ⟨by simp [register, hok, hs, ht2], by simp [login, hok, hs, ht2]⟩

/-- Witness for C10: a success body with an empty-string token leaves a
token-holding client untouched. -/
theorem c10_no_token_no_change_witness :
    okEmptyTokResp.ok = true ∧
    isFalseLit (jsGet (safeJson okEmptyTokResp) "success") = false ∧
    truthy (userTok okEmptyTokResp) = false ∧
    (register tokClient vNull vNull vNull vNull okEmptyTokResp).client = tokClient :=
  ⟨by decide, by decide, by decide,
    (c10_no_token_no_change tokClient vNull vNull vNull vNull okEmptyTokResp
      (by decide) (by decide) (by decide)).1⟩

/-- C5 counterexample: a client holding token `"T"` (consistently
persisted) whose `getProfile` fails keeps its token — the claim that a
failed profile refresh destroys the held token is false on the code,
which rethrows the mapped error without touching the token. -/
theorem c5_counterexample :
    (getProfile tokClient failRespNoBody).result = .error
      { message := vStr "Profile failed", status := 500
        code := vStr "REQUEST_FAILED", data := vNull } ∧
    (getProfile tokClient failRespNoBody).client = tokClient ∧
    tokClient.token = vStr "T" ∧
    storedToken tokClient = some "T" ∧
    vStr "T" ≠ vNull := by
  refine ⟨rfl, rfl, rfl, rfl, ?_⟩
  intro h
  exact JsValue.noConfusion h

/-- C5 (amended): a failed `getProfile` leaves the client — held token
and persisted copy — entirely unchanged; the token is destroyed only by
`logout`/`setToken(null)`. -/
theorem c5_failed_profile_keeps_token (c : Client) (resp : Response)
    (h : (!resp.ok || isFalseLit (jsGet (safeJson resp) "success")) = true) :
    (getProfile c resp).client = c := by
  simp [getProfile, h]

/-- Witness for the amended C5. -/
theorem c5_failed_profile_keeps_token_witness :
    ((!failRespNoBody.ok || isFalseLit (jsGet (safeJson failRespNoBody) "success")) = true) ∧
    (getProfile tokClient failRespNoBody).client = tokClient :=
  ⟨by decide, c5_failed_profile_keeps_token tokClient failRespNoBody (by decide)⟩

/-- C4: a Google OAuth login with neither `id_token` nor `access_token`
rejects immediately with an error whose code is `MISSING_TOKEN`, and the
client issues zero transport calls and is left unchanged. -/
theorem c4_google_missing_token (c : Client) (idT aT : JsValue) (resp : Response)
    (h1 : truthy idT = false) (h2 : truthy aT = false) :
    (googleAuth c idT aT resp).calls = [] ∧
    (googleAuth c idT aT resp).client = c ∧
    (googleAuth c idT aT resp).result = .error
      { message := vStr "id_token or access_token is required", status := 0
        code := vStr "MISSING_TOKEN", data := vNull } := by
  refine ⟨?_, ?_, ?_⟩ <;> simp [googleAuth, h1, h2]

/-- Witness for C4 with both token arguments absent. -/
theorem c4_google_missing_token_witness :
    truthy vNull = false ∧ truthy vUndef = false ∧
    (googleAuth sClient vNull vUndef okResp).calls = [] :=
  ⟨by decide, by decide,
    (c4_google_missing_token sClient vNull vUndef okResp (by decide) (by decide)).1⟩

/-- C2: on a client backed by a (non-failing) persistence store, setToken
with a non-empty string sets both the in-memory token and the stored copy
under the fixed key; setToken with null or the empty string clears both;
the consistency invariant holds after every non-empty sequence of
setToken/logout operations; and a fresh client constructed against the
store after a logout observes no token. -/
theorem c2_token_store_consistency (c : Client) (s : Store) (t : String)
    (k2 sec2 b2 : String) (kp2 : Bool) (op : TokenOp) (ops : List TokenOp)
    (hc : c.storage = some s) (hg : goodStore s) (ht : t ≠ "") :
    ((setToken (vStr t) c).token = vStr t ∧
      storedToken (setToken (vStr t) c) = some t) ∧
    ((setToken vNull c).token = vNull ∧
      storedToken (setToken vNull c) = none) ∧
    ((setToken (vStr "") c).token = vNull ∧
      storedToken (setToken (vStr "") c) = none) ∧
    tokenConsistent (applyOps c (op :: ops)) ∧
    (mkClient k2 sec2 b2 kp2 ((logout c).storage)).token = vNull := by
  obtain ⟨hget, hset, hrem⟩ := hg
  have htt : truthy (vStr t) = true := by simp [truthy, ht]
  refine ⟨⟨?_, ?_⟩, ⟨?_, ?_⟩, ⟨?_, ?_⟩, ?_, ?_⟩
  · simp [setToken, htt]
  · simp [storedToken, setToken, htt, hc, _save, Store.setItem, hset,
      lookupK_setK, jsToString]
  · simp [setToken, truthy]
  · simp [storedToken, setToken, truthy, hc, _clear, Store.removeItem, hrem,
      lookupK_removeK]
  · simp [setToken, truthy]
  · simp [storedToken, setToken, truthy, hc, _clear, Store.removeItem, hrem,
      lookupK_removeK]
  · obtain ⟨s2, hc2, hg2⟩ := applyOp_good c op s hc ⟨hget, hset, hrem⟩
    exact applyOps_consistent ops (applyOp c op) s2 hc2 hg2
      (applyOp_consistent c op s hc ⟨hget, hset, hrem⟩)
  · have h5 : (logout c).storage = some { s with items := removeK s.items tokenKey } := by
      simp [logout, setToken, truthy, hc, _clear, Store.removeItem, hrem]
    simp [mkClient, h5, _load, Store.getItem, hget, lookupK_removeK]

/-- Witness for C2 on a concrete token-holding client. -/
theorem c2_token_store_consistency_witness :
    tokClient.storage = some tStore ∧ goodStore tStore ∧ ("U" : String) ≠ "" ∧
    (setToken (vStr "U") tokClient).token = vStr "U" ∧
    storedToken (setToken (vStr "U") tokClient) = some "U" ∧
    (mkClient "a" "b" "u" true ((logout tokClient).storage)).token = vNull := by
  have h := c2_token_store_consistency tokClient tStore "U" "a" "b" "u" true
    (.set (vStr "U")) [.doLogout] rfl ⟨rfl, rfl, rfl⟩ (by decide)
  exact ⟨rfl, ⟨rfl, rfl, rfl⟩, by decide, h.1.1, h.1.2, h.2.2.2.2⟩

/-- C3 counterexample: a successful register whose body carries the token
field with the empty-string value does NOT adopt it — the held token
stays null, so the claim as stated (any present token field is adopted)
fails. -/
theorem c3_counterexample :
    (register sClient vNull vNull vNull vNull okEmptyTokResp).result =
      .ok (safeJson okEmptyTokResp) ∧
    userTok okEmptyTokResp = vStr "" ∧
    (register sClient vNull vNull vNull vNull okEmptyTokResp).client.token ≠
      userTok okEmptyTokResp := by
  refine ⟨rfl, rfl, ?_⟩
  intro h
  exact JsValue.noConfusion h

/-- C3 (amended): every successful register/login/googleAuth call whose
body carries a truthy `data.user_token` leaves the client holding exactly
that value, and a present non-failing store holds its stringification;
getProfile and authed never touch the token. -/
theorem c3_token_adoption (c : Client) (s : Store) (e u p n idT aT : JsValue)
    (path verb : String) (bd : Option JsValue) (xh : List (String × String))
    (resp : Response)
    (hok : resp.ok = true)
    (hs : isFalseLit (jsGet (safeJson resp) "success") = false)
    (ht : truthy (userTok resp) = true) :
    (register c e u p n resp).client.token = userTok resp ∧
    (login c e u p resp).client.token = userTok resp ∧
    ((truthy idT || truthy aT) = true →
      (googleAuth c idT aT resp).client.token = userTok resp) ∧
    (c.storage = some s → s.setThrows = false →
      storedToken ((register c e u p n resp).client) =
        some (jsToString (userTok resp)) ∧
      storedToken ((login c e u p resp).client) =
        some (jsToString (userTok resp)) ∧
      ((truthy idT || truthy aT) = true →
        storedToken ((googleAuth c idT aT resp).client) =
          some (jsToString (userTok resp)))) ∧
    (getProfile c resp).client = c ∧
    (authed c path verb bd xh resp).client = c := by
  have ht2 : truthy (jsGet (jsGet (safeJson resp) "data") "user_token") = true := ht
  have hcond : ∀ hga : (truthy idT || truthy aT) = true,
      (!truthy idT && !truthy aT) = false := by
    intro hga
    cases h1 : truthy idT <;> cases h2 : truthy aT <;> simp_all
  refine ⟨?_, ?_, ?_, ?_, ?_, ?_⟩
  · simp [register, hok, hs, ht2, setToken, userTok]
  · simp [login, hok, hs, ht2, setToken, userTok]
  · intro hga
    simp [googleAuth, hcond hga, hok, hs, ht2, setToken, userTok]
  · intro hcs hsT
    refine ⟨?_, ?_, ?_⟩
    · simp [register, hok, hs, ht2, storedToken, setToken, hcs, _save,
        Store.setItem, hsT, lookupK_setK, userTok]
    · simp [login, hok, hs, ht2, storedToken, setToken, hcs, _save,
        Store.setItem, hsT, lookupK_setK, userTok]
    · intro hga
      simp [googleAuth, hcond hga, hok, hs, ht2, storedToken, setToken, hcs,
        _save, Store.setItem, hsT, lookupK_setK, userTok]
  · simp [getProfile, hok, hs]
  · simp [authed, hok, hs]

/-- Witness for the amended C3 at a concrete successful login response. -/
theorem c3_token_adoption_witness :
    okResp.ok = true ∧
    isFalseLit (jsGet (safeJson okResp) "success") = false ∧
    truthy (userTok okResp) = true ∧
    (register stClient vNull vNull vNull vNull okResp).client.token = userTok okResp :=
  ⟨by decide, by decide, by decide,
    (c3_token_adoption stClient plainStore vNull vNull vNull vNull vNull vNull
      "p" "GET" none [] okResp (by decide) (by decide) (by decide)).1⟩

/-- C6: URL construction joins the (trailing-slash-stripped) base URL to
the (leading-slash-stripped) path, prefixing the percent-encoded API key
segment in path-embedded mode and omitting it in header-only mode; in
particular base `https://host/api/v1` with key `abc` and path
`auth/login` yields `https://host/api/v1/abc/auth/login` resp.
`https://host/api/v1/auth/login`. -/
theorem c6_build_url (ak sec base path : String) (st : Option Store) (kp : Bool) :
    _buildUrl (mkClient ak sec base kp st) path =
      (if kp then
        stripTrailingSlash base ++ "/" ++ encodeURIComponent ak ++ "/" ++
          stripLeadingSlash path
      else stripTrailingSlash base ++ "/" ++ stripLeadingSlash path) ∧
    _buildUrl (mkClient "abc" "s3c" "https://host/api/v1" true none) "auth/login" =
      "https://host/api/v1/abc/auth/login" ∧
    _buildUrl (mkClient "abc" "s3c" "https://host/api/v1" false none) "auth/login" =
      "https://host/api/v1/auth/login" := by
  refine ⟨?_, ?_, ?_⟩
  · cases kp <;> simp [_buildUrl, mkClient]
  · decide
  · decide

/-- C7: outgoing headers always contain `Content-Type: application/json`
and the API secret; the API key header is sent by the `part_000` variant
but never by the `AuthClient.js` variant; `Authorization: UserToken
<token>` appears exactly when a token is held; and caller-supplied extra
headers are merged last, overriding any of the preceding entries. -/
theorem c7_headers (c : Client) (extra : List (String × String)) (k v : String) :
    (hlookup extra "Content-Type" = none →
      hlookup (_headersV2 c extra) "Content-Type" = some "application/json") ∧
    (hlookup extra "X-API-Key" = none →
      hlookup (_headersV2 c extra) "X-API-Key" = some c.apiKey) ∧
    (hlookup extra "X-API-Secret" = none →
      hlookup (_headersV2 c extra) "X-API-Secret" = some c.apiSecret) ∧
    (hlookup extra "Authorization" = none →
      hlookup (_headersV2 c extra) "Authorization" =
        (if truthy c.token then some ("UserToken " ++ jsToString c.token) else none)) ∧
    (hlookup extra k = some v → hlookup (_headersV2 c extra) k = some v) ∧
    (hlookup extra "Content-Type" = none →
      hlookup (_headersV1 c extra) "Content-Type" = some "application/json") ∧
    (hlookup extra "X-API-Secret" = none →
      hlookup (_headersV1 c extra) "X-API-Secret" = some c.apiSecret) ∧
    (hlookup extra "X-API-Key" = none →
      hlookup (_headersV1 c extra) "X-API-Key" = none) ∧
    (hlookup extra "Authorization" = none →
      hlookup (_headersV1 c extra) "Authorization" =
        (if truthy c.token then some ("UserToken " ++ jsToString c.token) else none)) ∧
    (hlookup extra k = some v → hlookup (_headersV1 c extra) k = some v) := by
  refine ⟨?_, ?_, ?_, ?_, ?_, ?_, ?_, ?_, ?_, ?_⟩ <;> intro hx <;>
    cases htok : truthy c.token <;>
      simp [_headersV1, _headersV2, hlookup_append, hx, hlookup, htok]

/-- Witness for C7: a held token, with a caller override of the
`Authorization` header. -/
theorem c7_headers_witness :
    hlookup [("Authorization", "custom")] "Content-Type" = none ∧
    hlookup (_headersV2 tokClient [("Authorization", "custom")]) "Content-Type" =
      some "application/json" ∧
    hlookup [("Authorization", "custom")] "Authorization" = some "custom" ∧
    hlookup (_headersV2 tokClient [("Authorization", "custom")]) "Authorization" =
      some "custom" := by
  have h := c7_headers tokClient [("Authorization", "custom")] "Authorization" "custom"
  exact ⟨by decide, h.1 (by decide), by decide, h.2.2.2.2.1 (by decide)⟩

/-- C8: persistence is best-effort — a throwing `getItem` loads as "no
token", a throwing `setItem`/`removeItem` leaves the store as it was
(the operation completes, nothing propagates), a missing store or a
missing stored value at construction resolves to no token, and
`setToken`/`logout` against a throwing store still complete with the
store untouched. -/
theorem c8_storage_best_effort (s : Store) (k v ak sec bu : String) (kp : Bool)
    (c : Client) (t : JsValue) :
    (s.getThrows = true → _load (some s) k = vNull) ∧
    (s.setThrows = true → _save (some s) k v = some s) ∧
    (s.removeThrows = true → _clear (some s) k = some s) ∧
    _load none k = vNull ∧
    (mkClient ak sec bu kp none).token = vNull ∧
    (lookupK s.items tokenKey = none → (mkClient ak sec bu kp (some s)).token = vNull) ∧
    (c.storage = some s → s.setThrows = true → truthy t = true →
      (setToken t c).storage = some s) ∧
    (c.storage = some s → s.removeThrows = true → (logout c).storage = some s) := by
  refine ⟨?_, ?_, ?_, rfl, rfl, ?_, ?_, ?_⟩
  · intro h; simp [_load, Store.getItem, h]
  · intro h; simp [_save, Store.setItem, h]
  · intro h; simp [_clear, Store.removeItem, h]
  · intro h
    by_cases hg : s.getThrows = true
    · simp [mkClient, _load, Store.getItem, hg]
    · simp [mkClient, _load, Store.getItem, hg, h]
  · intro hc hset htt
    simp [setToken, htt, hc, _save, Store.setItem, hset]
  · intro hc hrem
    simp [logout, setToken, truthy, hc, _clear, Store.removeItem, hrem]

/-- Witness for C8 on the all-throwing store. -/
theorem c8_storage_best_effort_witness :
    badStore.getThrows = true ∧ badStore.setThrows = true ∧
    badStore.removeThrows = true ∧
    _load (some badStore) tokenKey = vNull ∧
    _save (some badStore) tokenKey "X" = some badStore ∧
    _clear (some badStore) tokenKey = some badStore := by
  have h := c8_storage_best_effort badStore tokenKey "X" "a" "b" "u" true
    sClient vNull
  exact ⟨rfl, rfl, rfl, h.1 rfl, h.2.1 rfl, h.2.2.1 rfl⟩
